import Mathlib

/-!
Verification of the KB-Admin-Bot moderation core.

Shallow embedding of `BotCore/commands/moderation.py` (duration parsing,
timed-ban scheduling, the in-memory muted-users table, manual unban/unmute,
message clearing) and `BotCore/keep_alive.py` (the status endpoints).

Times are modelled as seconds since the platform datetime origin
(0001-01-01T00:00:00 UTC), as an `Int`.  Python integers are unbounded, so
parsed amounts are plain `Nat`; the platform's `timedelta` and `datetime`
range limits are modelled explicitly, since exceeding them raises an
overflow fault in the source language.
-/

namespace KBAdmin

/-- Python `str.lower` restricted to the ASCII range the parser cares about:
uppercase letters map down by 32, everything else is unchanged. -/
def pyLower (c : Char) : Char :=
  if 65 ≤ c.toNat ∧ c.toNat ≤ 90 then Char.ofNat (c.toNat + 32) else c

/-- The `\d` class of the regex, over ASCII digits. -/
def isAsciiDigit (c : Char) : Bool :=
  48 ≤ c.toNat && c.toNat ≤ 57

/-- Numeric value of a digit string, as Python `int(...)` computes it
(arbitrary precision). -/
def digitsVal (cs : List Char) : Nat :=
  cs.foldl (fun a c => a * 10 + (c.toNat - 48)) 0

/-- Seconds per unit letter, from the four branches of `_parse_duration`. -/
def unitSeconds : Char → Int
  | 's' => 1
  | 'm' => 60
  | 'h' => 3600
  | 'd' => 86400
  | _ => 0

/-- `datetime.max` (9999-12-31T23:59:59) in seconds since the origin:
`date.max.toordinal() = 3652059`, so 3652058 whole days plus 86399 seconds. -/
def maxDatetime : Int := 3652058 * 86400 + 86399

/-- `timedelta` normalises to days and rejects more than 999999999 of them. -/
def timedeltaMaxDays : Int := 999999999

/-- The regex `^(\d+)([smhd])$` of `_parse_duration`, applied to an
already-lowercased character list: one or more digits followed by a single
unit letter.  Returns the captured groups. -/
def durMatch (cs : List Char) : Option (Nat × Char) :=
  match cs.getLast? with
  | none => none
  | some u =>
    if cs.dropLast ≠ [] ∧ cs.dropLast.all isAsciiDigit = true ∧
        (u = 's' ∨ u = 'm' ∨ u = 'h' ∨ u = 'd')
    then some (digitsVal cs.dropLast, u)
    else none

/-- `ModerationCommands._parse_duration` (moderation.py lines 25-48).
`Except.ok none` is the distinguished invalid result (Python `None`);
`Except.error` models an uncaught `OverflowError` from `timedelta` or from
the `datetime + timedelta` addition. -/
def parse_duration (now : Int) (s : String) : Except String (Option Int) :=
  if s.data = [] then Except.ok none
  else
    match durMatch (s.data.map pyLower) with
    | none => Except.ok none
    | some (amount, unit) =>
      let ts : Int := (amount : Int) * unitSeconds unit
      if ts / 86400 > timedeltaMaxDays then
        Except.error "OverflowError: timedelta"
      else if now + ts > maxDatetime ∨ now + ts < 0 then
        Except.error "OverflowError: date value out of range"
      else Except.ok (some (now + ts))

/-! ### keep_alive.py -/

/-- The `bot_status` store, restricted to the fields the status endpoints
consult: the published `online` flag and the `last_ping` timestamp. -/
structure BotStatus where
  online : Bool
  last_ping : Option Int
deriving DecidableEq

/-- The `bot_online` field of `GET /ping` (keep_alive.py lines 65-72): it is
`bot_status.get('online', False)`, the stored flag as-is. -/
def ping_bot_online (st : BotStatus) : Bool :=
  st.online

/-- The `is_online` and `time_since_ping` computation of `GET /`
(keep_alive.py lines 43-50): online means the last snapshot is less than 60
seconds old; with no snapshot yet, offline. -/
def status_page_online (now : Int) (st : BotStatus) : Bool × Int :=
  match st.last_ping with
  | some lp => (decide (now - lp < 60), now - lp)
  | none => (false, 0)

/-! ### Moderation state and the platform-facing flows -/

/-- One value of `self.muted_users[member.id]` (moderation.py lines 245-249). -/
structure MuteInfo where
  muteUntil : Int
  reason : String
  moderator : Nat
deriving DecidableEq

/-- Combined state of the cog and of the externally observable platform
effects: the platform's ban list, a counter of outbound `guild.unban` calls,
a counter of outbound `member.timeout` calls, the cog's `muted_users` dict
(as an association list in insertion order) and the pending
`_schedule_unban` tasks created by `asyncio.create_task` (subject id and
fire instant). -/
structure World where
  bannedUsers : List Nat
  unbanCalls : Nat
  timeoutCalls : Nat
  muted_users : List (Nat × MuteInfo)
  tasks : List (Nat × Int)
deriving DecidableEq

/-- Python dict assignment `d[k] = v`: replace in place when the key is
present, append otherwise. -/
def dictInsert (k : Nat) (v : MuteInfo) (t : List (Nat × MuteInfo)) :
    List (Nat × MuteInfo) :=
  if (t.lookup k).isSome then
    t.map (fun p => if p.1 = k then (k, v) else p)
  else t ++ [(k, v)]

/-- Python `del d[k]`. -/
def dictErase (k : Nat) (t : List (Nat × MuteInfo)) : List (Nat × MuteInfo) :=
  t.filter (fun p => p.1 != k)

/-- The platform call `guild.unban(user)`: one outbound call is issued
either way; it succeeds when the user is banned and raises `NotFound`
(reported as `false`) otherwise. -/
def guild_unban (w : World) (uid : Nat) : World × Bool :=
  ({ w with
      unbanCalls := w.unbanCalls + 1,
      bannedUsers :=
        if uid ∈ w.bannedUsers then w.bannedUsers.erase uid
        else w.bannedUsers },
   decide (uid ∈ w.bannedUsers))

/-- `ModerationCommands.unban_user` (moderation.py lines 154-180) after
permission checks: fetch the user and call `guild.unban`; `NotFound` is
caught and reported as an error embed (`false`), success as a success embed
(`true`).  The pending scheduled task, if any, is not cancelled. -/
def unban_user_cmd (w : World) (uid : Nat) : World × Bool :=
  guild_unban w uid

/-- Outcome of one run of the `_schedule_unban` body: the resulting world,
whether `logger.error` ran, and whether an exception escaped. -/
structure FireResult where
  world : World
  loggedError : Bool
  raised : Bool
deriving DecidableEq

/-- The body of `ModerationCommands._schedule_unban` (moderation.py lines
83-90) once the sleep has elapsed: call `guild.unban` inside
`try/except Exception`, logging on failure; the task is no longer pending
afterwards.  No exception escapes, and no table is touched. -/
def fire_task (w : World) (uid : Nat) (fireAt : Int) : FireResult :=
  let r := guild_unban w uid
  { world := { r.1 with tasks := r.1.tasks.erase (uid, fireAt) },
    loggedError := !r.2,
    raised := false }

/-- The delay `_schedule_unban` hands to `asyncio.sleep`
(`(unban_time - now).total_seconds()`); `asyncio.sleep` treats a
non-positive delay as an immediate wakeup, hence the clamp. -/
def schedule_delay (now unban_time : Int) : Int :=
  max (unban_time - now) 0

/-- `ModerationCommands.ban_user` (moderation.py lines 98-147) after
permission checks, on the success path: parse the duration when one is
given (invalid → error embed, no ban; an overflow fault is caught by the
surrounding `except Exception`, no ban), ban the member on the platform,
and arm a detached `_schedule_unban` task when a duration was parsed.  No
prior task is cancelled and nothing is stored in `muted_users`. -/
def ban_user_cmd (w : World) (uid : Nat) (now : Int) (duration : Option String) :
    World × Bool :=
  match duration with
  | none => ({ w with bannedUsers := w.bannedUsers.insert uid }, true)
  | some d =>
    match parse_duration now d with
    | Except.ok none => (w, false)
    | Except.error _ => (w, false)
    | Except.ok (some t) =>
      ({ w with
          bannedUsers := w.bannedUsers.insert uid,
          tasks := w.tasks ++ [(uid, t)] }, true)

/-- `ModerationCommands.mute_user` (moderation.py lines 228-262) after
permission checks: parse the duration (invalid or faulting → error embed,
nothing stored), apply `member.timeout` and store the record in
`muted_users` by dict assignment.  No reversal task is created. -/
def mute_user_cmd (w : World) (uid : Nat) (now : Int) (duration : String)
    (reason : String) (moderator : Nat) : World × Bool :=
  match parse_duration now duration with
  | Except.ok none => (w, false)
  | Except.error _ => (w, false)
  | Except.ok (some t) =>
    ({ w with
        timeoutCalls := w.timeoutCalls + 1,
        muted_users := dictInsert uid ⟨t, reason, moderator⟩ w.muted_users },
     true)

/-- `ModerationCommands.unmute_user` (moderation.py lines 269-290) after
permission checks: call `member.timeout(None)` (always issued; `ok` is the
call's outcome), then delete the `muted_users` entry only when present and
report success; on a platform failure the `except` branch reports an error
and the deletion never runs. -/
def unmute_user_cmd (ok : Bool) (w : World) (uid : Nat) : World × Bool :=
  let w1 := { w with timeoutCalls := w.timeoutCalls + 1 }
  if ok then
    (if (w1.muted_users.lookup uid).isSome then
       { w1 with muted_users := dictErase uid w1.muted_users }
     else w1, true)
  else (w1, false)

/-- The clamp at the top of `ModerationCommands.clear_messages`
(moderation.py lines 338-339, 349): the purge limit actually requested. -/
def clear_messages_limit (amount : Int) : Int :=
  if amount > 100 then 100 else amount

/-! ### Helper lemmas -/

lemma pyLower_of_digit {c : Char} (h : isAsciiDigit c = true) : pyLower c = c := by
  simp only [isAsciiDigit, Bool.and_eq_true, decide_eq_true_eq] at h
  unfold pyLower
  rw [if_neg]
  omega

lemma map_pyLower_digits {ds : List Char} (h : ds.all isAsciiDigit = true) :
    ds.map pyLower = ds := by
  induction ds with
  | nil => rfl
  | cons c cs ih =>
    simp only [List.all_cons, Bool.and_eq_true] at h
    simp [pyLower_of_digit h.1, ih h.2]

lemma parse_duration_concat (now : Int) (ds : List Char) (u : Char)
    (hne : ds ≠ []) (hdig : ds.all isAsciiDigit = true)
    (hu : pyLower u = 's' ∨ pyLower u = 'm' ∨ pyLower u = 'h' ∨ pyLower u = 'd') :
    parse_duration now ⟨ds ++ [u]⟩ =
      if (digitsVal ds : Int) * unitSeconds (pyLower u) / 86400 > timedeltaMaxDays then
        Except.error "OverflowError: timedelta"
      else if now + (digitsVal ds : Int) * unitSeconds (pyLower u) > maxDatetime ∨
             now + (digitsVal ds : Int) * unitSeconds (pyLower u) < 0 then
        Except.error "OverflowError: date value out of range"
      else Except.ok (some (now + (digitsVal ds : Int) * unitSeconds (pyLower u))) := by
  have hmap : (ds ++ [u]).map pyLower = ds ++ [pyLower u] := by
    rw [List.map_append, map_pyLower_digits hdig]
    rfl
  have hdm : durMatch ((ds ++ [u]).map pyLower) = some (digitsVal ds, pyLower u) := by
    rw [hmap]
    unfold durMatch
    have h1 : (ds ++ [pyLower u]).getLast? = some (pyLower u) := by simp
    have h2 : (ds ++ [pyLower u]).dropLast = ds := by simp
    rw [h1, h2]
    exact if_pos ⟨hne, hdig, hu⟩
  have hdata : (String.mk (ds ++ [u])).data = ds ++ [u] := rfl
  unfold parse_duration
  rw [hdata, if_neg (by simp), hdm]

lemma parse_duration_ok_of_bounds (now : Int) (ds : List Char) (u : Char)
    (hne : ds ≠ []) (hdig : ds.all isAsciiDigit = true)
    (hu : pyLower u = 's' ∨ pyLower u = 'm' ∨ pyLower u = 'h' ∨ pyLower u = 'd')
    (hnow : 0 ≤ now)
    (hdelta : (digitsVal ds : Int) * unitSeconds (pyLower u) / 86400 ≤ timedeltaMaxDays)
    (hmax : now + (digitsVal ds : Int) * unitSeconds (pyLower u) ≤ maxDatetime) :
    parse_duration now ⟨ds ++ [u]⟩ =
      Except.ok (some (now + (digitsVal ds : Int) * unitSeconds (pyLower u))) := by
  have hts : 0 ≤ (digitsVal ds : Int) * unitSeconds (pyLower u) := by
    rcases hu with h | h | h | h <;> rw [h] <;> simp [unitSeconds]
  rw [parse_duration_concat now ds u hne hdig hu]
  have h2 : ¬(now + (digitsVal ds : Int) * unitSeconds (pyLower u) > maxDatetime ∨
             now + (digitsVal ds : Int) * unitSeconds (pyLower u) < 0) := by
    push_neg
    exact ⟨hmax, by omega⟩
  rw [if_neg (not_lt.mpr hdelta), if_neg h2]

lemma lookup_isSome_mem {t : List (Nat × MuteInfo)} {k : Nat}
    (h : (t.lookup k).isSome = true) : k ∈ t.map Prod.fst := by
  induction t with
  | nil => simp [List.lookup] at h
  | cons p t ih =>
    by_cases hk : k = p.1
    · simp [hk]
    · have : (k == p.1) = false := by simp [hk]
      simp only [List.lookup, this] at h
      simp [ih h]

lemma lookup_none_keys {t : List (Nat × MuteInfo)} {k : Nat}
    (h : t.lookup k = none) : ∀ p ∈ t, p.1 ≠ k := by
  induction t with
  | nil => intro p hp; simp at hp
  | cons q t ih =>
    by_cases hk : k = q.1
    · have : (k == q.1) = true := by simp [hk]
      simp [List.lookup, this] at h
    · have : (k == q.1) = false := by simp [hk]
      simp only [List.lookup, this] at h
      intro p hp
      rcases List.mem_cons.mp hp with rfl | hp
      · exact fun hc => hk hc.symm
      · exact ih h p hp

lemma countP_dictInsert (t : List (Nat × MuteInfo)) (k : Nat) (v : MuteInfo)
    (hnd : (t.map Prod.fst).Nodup) :
    (dictInsert k v t).countP (fun p => p.1 == k) = 1 := by
  unfold dictInsert
  split
  case isTrue hs =>
    rw [List.countP_map]
    have hfun :
        ((fun p : Nat × MuteInfo => p.1 == k) ∘
          (fun p : Nat × MuteInfo => if p.1 = k then (k, v) else p)) =
        (fun p : Nat × MuteInfo => p.1 == k) := by
      funext x
      by_cases hx : x.1 = k <;> simp [hx]
    rw [hfun]
    have hk : k ∈ t.map Prod.fst := lookup_isSome_mem hs
    have hcount : t.countP (fun p => p.1 == k) = (t.map Prod.fst).count k := by
      rw [List.count, List.countP_map]
      rfl
    rw [hcount, List.count_eq_one_of_mem hnd hk]
  case isFalse hs =>
    rw [List.countP_append]
    have h0 : t.countP (fun p => p.1 == k) = 0 := by
      rw [List.countP_eq_zero]
      intro p hp
      have := lookup_none_keys (Option.not_isSome_iff_eq_none.mp hs) p hp
      simp [this]
    rw [h0]
    simp

lemma ban_user_cmd_some (w : World) (uid : Nat) (now : Int) (d : String) :
    ban_user_cmd w uid now (some d) =
      match parse_duration now d with
      | Except.ok none => (w, false)
      | Except.error _ => (w, false)
      | Except.ok (some t) =>
        ({ w with
            bannedUsers := w.bannedUsers.insert uid,
            tasks := w.tasks ++ [(uid, t)] }, true) := rfl

/-! ### Claim theorems -/

/-- Claim C4, counterexample: the claim says parse of the string with a zero
amount is invalid, but the regex admits a zero amount and the parser returns
the current instant (a valid result) for it, not the distinguished invalid
result. -/
theorem C4_zero_accepted :
    parse_duration 1000 "0m" = Except.ok (some 1000) ∧
    parse_duration 1000 "0m" ≠ Except.ok none := by
  constructor
  · rfl
  · intro h
    exact Option.noConfusion (Except.ok.inj h)

/-- Claim C4, amended: for every input string on which the digits-then-unit
regex fails (empty, unit-less, leading minus, unrecognised unit), the parser
returns the distinguished invalid result and never aborts; zero amounts,
however, match the regex and are accepted. -/
theorem C4_invalid_strings (now : Int) (s : String)
    (h : durMatch (s.data.map pyLower) = none) :
    parse_duration now s = Except.ok none := by
  unfold parse_duration
  split
  · rfl
  · rw [h]

/-- Witness for C4_invalid_strings at the concrete non-matching input "10x". -/
theorem C4_invalid_strings_witness : parse_duration 0 "10x" = Except.ok none :=
  C4_invalid_strings 0 "10x" (by rfl)

/-- Claim C5, counterexample: for the valid-form string with amount
1000000000 and unit d the parser does not return now plus the duration; the
platform timedelta range is exceeded and an overflow fault is raised. -/
theorem C5_overflow_example :
    parse_duration 0 "1000000000d" = Except.error "OverflowError: timedelta" ∧
    parse_duration 0 "1000000000d" ≠ Except.ok (some (1000000000 * 86400)) := by
  constructor
  · rfl
  · intro h
    exact Except.noConfusion h

/-- Claim C5, amended: for every string of the form digits-then-unit with a
positive amount, in either letter case, the parser returns the current
instant plus amount times the unit length in seconds, provided the computed
duration and target instant fit inside the platform datetime range; beyond
that range the computation faults. -/
theorem C5_valid_parse (now : Int) (ds : List Char) (u : Char)
    (hne : ds ≠ []) (hdig : ds.all isAsciiDigit = true)
    (_hpos : 0 < digitsVal ds)
    (hu : pyLower u = 's' ∨ pyLower u = 'm' ∨ pyLower u = 'h' ∨ pyLower u = 'd')
    (hnow : 0 ≤ now)
    (hdelta : (digitsVal ds : Int) * unitSeconds (pyLower u) / 86400 ≤ timedeltaMaxDays)
    (hmax : now + (digitsVal ds : Int) * unitSeconds (pyLower u) ≤ maxDatetime) :
    parse_duration now ⟨ds ++ [u]⟩ =
      Except.ok (some (now + (digitsVal ds : Int) * unitSeconds (pyLower u))) :=
  parse_duration_ok_of_bounds now ds u hne hdig hu hnow hdelta hmax

/-- Witness for C5_valid_parse: parsing "10m" at instant 0 yields 600. -/
theorem C5_valid_parse_witness :
    parse_duration 0 ⟨['1', '0', 'm']⟩ = Except.ok (some 600) := by
  have h := C5_valid_parse 0 ['1', '0'] 'm' (by decide) (by decide) (by decide)
    (by decide) (by decide) (by decide) (by decide)
  simpa using h

/-- Claim C8, counterexample: for the matching string with the huge amount
100000000000000 of seconds the parser does not compute the target instant;
the platform timedelta limit is exceeded and an overflow fault is raised. -/
theorem C8_overflow_example :
    parse_duration 0 "100000000000000s" = Except.error "OverflowError: timedelta" ∧
    parse_duration 0 "100000000000000s" ≠ Except.ok (some 100000000000000) := by
  constructor
  · rfl
  · intro h
    exact Except.noConfusion h

/-- Claim C8, amended: the amount itself is read with full-range integer
arithmetic (no overflow in the integer), and the target instant is computed
without fault exactly when the duration fits the platform timedelta range
and the target fits the platform datetime range; when the duration exceeds
the timedelta range the computation faults with an overflow error. -/
theorem C8_range_characterisation (now : Int) (ds : List Char) (u : Char)
    (hne : ds ≠ []) (hdig : ds.all isAsciiDigit = true)
    (hu : pyLower u = 's' ∨ pyLower u = 'm' ∨ pyLower u = 'h' ∨ pyLower u = 'd')
    (hnow : 0 ≤ now) :
    ((digitsVal ds : Int) * unitSeconds (pyLower u) / 86400 ≤ timedeltaMaxDays ∧
     now + (digitsVal ds : Int) * unitSeconds (pyLower u) ≤ maxDatetime →
       parse_duration now ⟨ds ++ [u]⟩ =
         Except.ok (some (now + (digitsVal ds : Int) * unitSeconds (pyLower u)))) ∧
    ((digitsVal ds : Int) * unitSeconds (pyLower u) / 86400 > timedeltaMaxDays →
       parse_duration now ⟨ds ++ [u]⟩ = Except.error "OverflowError: timedelta") := by
  constructor
  · intro hb
    exact parse_duration_ok_of_bounds now ds u hne hdig hu hnow hb.1 hb.2
  · intro hgt
    rw [parse_duration_concat now ds u hne hdig hu, if_pos hgt]

/-- Witness for C8_range_characterisation: parsing "2d" at instant 0 is in
range and yields 172800. -/
theorem C8_range_witness : parse_duration 0 ⟨['2', 'd']⟩ = Except.ok (some 172800) := by
  have h := (C8_range_characterisation 0 ['2'] 'd' (by decide) (by decide)
    (by decide) (by decide)).1 (by decide)
  simpa using h

/-- Claim C3, counterexample: with the stored snapshot published at instant 0
and its online flag true, at instant 120 the snapshot is over 60 seconds old,
yet the ping endpoint still reports bot_online true — it returns the stored
flag without any staleness check. -/
theorem C3_ping_ignores_staleness :
    (status_page_online 120 { online := true, last_ping := some 0 }).2 ≥ 60 ∧
    ping_bot_online { online := true, last_ping := some 0 } = true ∧
    ping_bot_online { online := true, last_ping := some 0 } ≠ false := by
  refine ⟨by decide, rfl, by decide⟩

/-- Claim C3, amended: the 60-second staleness derivation lives in the root
status page, not in the ping endpoint: once the last snapshot is 60 or more
seconds old the status page reports offline even if the stored flag says
online, while the ping endpoint returns the stored flag unchanged. -/
theorem C3_staleness_on_status_page (now lp : Int) (st : BotStatus)
    (h : st.last_ping = some lp) (hstale : now - lp ≥ 60) :
    (status_page_online now st).1 = false ∧ ping_bot_online st = st.online := by
  constructor
  · simp only [status_page_online, h]
    rw [decide_eq_false_iff_not]
    omega
  · rfl

/-- Witness for C3_staleness_on_status_page at now 120, snapshot at 0 with
stored flag true. -/
theorem C3_staleness_witness :
    (status_page_online 120 { online := true, last_ping := some 0 }).1 = false ∧
    ping_bot_online { online := true, last_ping := some 0 } =
      BotStatus.online { online := true, last_ping := some 0 } :=
  C3_staleness_on_status_page 120 0 { online := true, last_ping := some 0 }
    rfl (by decide)

/-- Claim C10: the clear command clamps the requested amount to 100, so the
purge limit never exceeds 100, and equals exactly 100 whenever more was
requested. -/
theorem C10_clear_clamp (amount : Int) :
    clear_messages_limit amount ≤ 100 ∧
    (amount > 100 → clear_messages_limit amount = 100) := by
  unfold clear_messages_limit
  split <;> omega

/-- Witness for C10_clear_clamp at the concrete request 250. -/
theorem C10_clear_clamp_witness : clear_messages_limit 250 = 100 :=
  (C10_clear_clamp 250).2 (by decide)

/-- Claim C7: a reversal whose expiry is at or before the current instant
sleeps for zero seconds (asyncio treats the non-positive computed delay as an
immediate wakeup) and the reversal body then runs, issuing its platform
unban call — it is neither dropped nor deferred. -/
theorem C7_past_expiry_immediate (now expiry : Int) (w : World) (uid : Nat)
    (h : expiry ≤ now) :
    schedule_delay now expiry = 0 ∧
    (fire_task w uid expiry).world.unbanCalls = w.unbanCalls + 1 := by
  constructor
  · unfold schedule_delay
    exact max_eq_right (by omega)
  · rfl

/-- Witness for C7_past_expiry_immediate: expiry 3 at current instant 5. -/
theorem C7_past_expiry_witness :
    schedule_delay 5 3 = 0 ∧
    (fire_task ⟨[4], 0, 0, [], [(4, 3)]⟩ 4 3).world.unbanCalls = 0 + 1 :=
  C7_past_expiry_immediate 5 3 ⟨[4], 0, 0, [], [(4, 3)]⟩ 4 (by decide)

/-- Claim C6: when the scheduled reversal's platform unban fails (the subject
is no longer banned), the error is logged and swallowed — no exception
escapes the task — and the muted-users state table is untouched, so it holds
no record for the subject afterwards if it held none before; moreover the
ban command never stores any record in that table in the first place, so no
timed-ban record can remain in any case. -/
theorem C6_failed_reversal_swallowed (w : World) (uid : Nat) (t : Int)
    (hfail : uid ∉ w.bannedUsers) :
    (fire_task w uid t).raised = false ∧
    (fire_task w uid t).loggedError = true ∧
    (fire_task w uid t).world.muted_users = w.muted_users ∧
    (w.muted_users.lookup uid = none →
      (fire_task w uid t).world.muted_users.lookup uid = none) ∧
    (∀ (now : Int) (d : Option String),
      (ban_user_cmd w uid now d).1.muted_users = w.muted_users) := by
  refine ⟨rfl, ?_, rfl, fun h => h, ?_⟩
  · simp [fire_task, guild_unban, hfail]
  · intro now d
    cases d with
    | none => rfl
    | some s =>
      rcases hps : parse_duration now s with e | o
      · rw [ban_user_cmd_some, hps]
      · cases o with
        | none => rw [ban_user_cmd_some, hps]
        | some t2 => rw [ban_user_cmd_some, hps]

/-- Witness for C6_failed_reversal_swallowed: the subject 3 is not banned,
the scheduled reversal at 7 fails, logs, and leaves the table alone. -/
theorem C6_failed_reversal_witness :
    (fire_task ⟨[], 0, 0, [], [(3, 7)]⟩ 3 7).raised = false ∧
    (fire_task ⟨[], 0, 0, [], [(3, 7)]⟩ 3 7).loggedError = true ∧
    (fire_task ⟨[], 0, 0, [], [(3, 7)]⟩ 3 7).world.muted_users = [] ∧
    (List.lookup 3 ([] : List (Nat × MuteInfo)) = none →
      (fire_task ⟨[], 0, 0, [], [(3, 7)]⟩ 3 7).world.muted_users.lookup 3 = none) ∧
    (∀ (now : Int) (d : Option String),
      (ban_user_cmd ⟨[], 0, 0, [], [(3, 7)]⟩ 3 now d).1.muted_users = []) :=
  C6_failed_reversal_swallowed ⟨[], 0, 0, [], [(3, 7)]⟩ 3 7 (by decide)

/-- Claim C9: unmuting a member whose id is absent from the muted-users
table leaves the table unchanged, still issues the platform timeout-removal
call and reports success; and for any platform outcome the deletion branch
never changes the table when the entry is absent. -/
theorem C9_unmute_absent (w : World) (uid : Nat)
    (h : w.muted_users.lookup uid = none) :
    (unmute_user_cmd true w uid).1.muted_users = w.muted_users ∧
    (unmute_user_cmd true w uid).1.timeoutCalls = w.timeoutCalls + 1 ∧
    (unmute_user_cmd true w uid).2 = true ∧
    (∀ ok : Bool, (unmute_user_cmd ok w uid).1.muted_users = w.muted_users) := by
  refine ⟨?_, ?_, ?_, ?_⟩
  · simp [unmute_user_cmd, h]
  · simp [unmute_user_cmd, h]
  · simp [unmute_user_cmd, h]
  · intro ok
    cases ok <;> simp [unmute_user_cmd, h]

/-- Witness for C9_unmute_absent: unmuting subject 8 while the table holds
only an entry for subject 2. -/
theorem C9_unmute_absent_witness :
    (unmute_user_cmd true ⟨[], 0, 0, [(2, ⟨60, "r", 1⟩)], []⟩ 8).1.muted_users
      = [(2, ⟨60, "r", 1⟩)] ∧
    (unmute_user_cmd true ⟨[], 0, 0, [(2, ⟨60, "r", 1⟩)], []⟩ 8).1.timeoutCalls = 0 + 1 ∧
    (unmute_user_cmd true ⟨[], 0, 0, [(2, ⟨60, "r", 1⟩)], []⟩ 8).2 = true ∧
    (∀ ok : Bool,
      (unmute_user_cmd ok ⟨[], 0, 0, [(2, ⟨60, "r", 1⟩)], []⟩ 8).1.muted_users
        = [(2, ⟨60, "r", 1⟩)]) :=
  C9_unmute_absent ⟨[], 0, 0, [(2, ⟨60, "r", 1⟩)], []⟩ 8 (by decide)

/-- Claim C2, counterexample: two timed bans for the same subject result in
two pending reversal tasks; the first task is not cancelled when the second
is armed. -/
theorem C2_second_ban_keeps_first_task :
    (ban_user_cmd (ban_user_cmd ⟨[], 0, 0, [], []⟩ 1 0 (some "1h")).1
        1 0 (some "2h")).1.tasks = [(1, 3600), (1, 7200)] ∧
    (1, 3600) ∈ (ban_user_cmd (ban_user_cmd ⟨[], 0, 0, [], []⟩ 1 0 (some "1h")).1
        1 0 (some "2h")).1.tasks ∧
    (ban_user_cmd (ban_user_cmd ⟨[], 0, 0, [], []⟩ 1 0 (some "1h")).1
        1 0 (some "2h")).1.tasks.length ≠ 1 := by
  decide

/-- Claim C2, amended: the muted-users dict does keep at most one record per
subject — a second mute replaces the first by dict assignment — but mutes
arm no reversal task at all, and a second timed ban for the same subject
merely appends a second detached unban task without cancelling the first. -/
theorem C2_mute_replaces_ban_accumulates :
    (∀ (w : World) (uid : Nat) (now : Int) (d reason : String)
       (moderator : Nat) (t : Int),
       parse_duration now d = Except.ok (some t) →
       (w.muted_users.map Prod.fst).Nodup →
       ((mute_user_cmd w uid now d reason moderator).1.muted_users.countP
         (fun p => p.1 == uid)) = 1) ∧
    (∀ (w : World) (uid : Nat) (now : Int) (d : String) (t : Int),
       parse_duration now d = Except.ok (some t) →
       (ban_user_cmd w uid now (some d)).1.tasks = w.tasks ++ [(uid, t)]) := by
  constructor
  · intro w uid now d reason moderator t hp hnd
    unfold mute_user_cmd
    rw [hp]
    exact countP_dictInsert w.muted_users uid ⟨t, reason, moderator⟩ hnd
  · intro w uid now d t hp
    rw [ban_user_cmd_some, hp]

/-- Witness for C2_mute_replaces_ban_accumulates: a mute of subject 7 for
"1h" on an empty table yields one record, and a timed ban of subject 7 for
"1h" appends exactly one task. -/
theorem C2_mute_ban_witness :
    ((mute_user_cmd ⟨[], 0, 0, [], []⟩ 7 0 "1h" "r" 9).1.muted_users.countP
      (fun p => p.1 == 7)) = 1 ∧
    (ban_user_cmd ⟨[], 0, 0, [], []⟩ 7 0 (some "1h")).1.tasks = [] ++ [(7, 3600)] :=
  ⟨C2_mute_replaces_ban_accumulates.1 ⟨[], 0, 0, [], []⟩ 7 0 "1h" "r" 9 3600
      (by rfl) (by decide),
   C2_mute_replaces_ban_accumulates.2 ⟨[], 0, 0, [], []⟩ 7 0 "1h" 3600 (by rfl)⟩

/-- Claim C1, counterexample: a manual unban racing the scheduled expiry for
the same ban yields two platform unban calls, not exactly one — the
scheduled task is never cancelled and fires its own call after the manual
lift already succeeded. -/
theorem C1_double_unban_call :
    (fire_task (unban_user_cmd ⟨[1], 0, 0, [], [(1, 50)]⟩ 1).1 1 50).world.unbanCalls = 2 ∧
    (fire_task (unban_user_cmd ⟨[1], 0, 0, [], [(1, 50)]⟩ 1).1 1 50).world.unbanCalls ≠ 1 := by
  decide

/-- Claim C1, amended: in the race each path issues its own platform unban
call (two in total, whichever order they run); exactly one of the calls
actually reverses the ban — the later one fails at the platform and its
failure is swallowed (not-found caught in the manual path, logged in the
scheduled path, no exception escaping) — and the muted-users table is
untouched, holding no record for the subject since timed bans never store
one. -/
theorem C1_race_one_effective_reversal (w : World) (uid : Nat) (t : Int)
    (hmem : uid ∈ w.bannedUsers) (hnd : w.bannedUsers.Nodup) :
    ((unban_user_cmd w uid).2 = true ∧
     (fire_task (unban_user_cmd w uid).1 uid t).loggedError = true ∧
     (fire_task (unban_user_cmd w uid).1 uid t).raised = false ∧
     (fire_task (unban_user_cmd w uid).1 uid t).world.unbanCalls = w.unbanCalls + 2 ∧
     (fire_task (unban_user_cmd w uid).1 uid t).world.bannedUsers
       = w.bannedUsers.erase uid ∧
     (fire_task (unban_user_cmd w uid).1 uid t).world.muted_users = w.muted_users) ∧
    ((fire_task w uid t).loggedError = false ∧
     (fire_task w uid t).raised = false ∧
     (unban_user_cmd (fire_task w uid t).world uid).2 = false ∧
     (unban_user_cmd (fire_task w uid t).world uid).1.unbanCalls = w.unbanCalls + 2 ∧
     (unban_user_cmd (fire_task w uid t).world uid).1.bannedUsers
       = w.bannedUsers.erase uid ∧
     (unban_user_cmd (fire_task w uid t).world uid).1.muted_users = w.muted_users) := by
  have hnm : uid ∉ w.bannedUsers.erase uid := by
    intro hx
    exact (hnd.mem_erase_iff.mp hx).1 rfl
  constructor
  · simp [unban_user_cmd, guild_unban, fire_task, hmem, hnm]
  · simp [unban_user_cmd, guild_unban, fire_task, hmem, hnm]

/-- Witness for C1_race_one_effective_reversal: the manual unban of the
banned subject 5 succeeds, and the scheduled task then logs a failure. -/
theorem C1_race_witness :
    (unban_user_cmd ⟨[5], 0, 0, [], [(5, 9)]⟩ 5).2 = true ∧
    (fire_task (unban_user_cmd ⟨[5], 0, 0, [], [(5, 9)]⟩ 5).1 5 9).loggedError = true :=
  ⟨(C1_race_one_effective_reversal ⟨[5], 0, 0, [], [(5, 9)]⟩ 5 9 (by decide)
      (by decide)).1.1,
   (C1_race_one_effective_reversal ⟨[5], 0, 0, [], [(5, 9)]⟩ 5 9 (by decide)
      (by decide)).1.2.1⟩

end KBAdmin
